import Mathlib

/-! Shallow embedding of the protocol dispatch, detection and normalization
core of `src/dbus-mppsolar.py`, together with theorems settling the
specification's claims about it.  Line numbers in comments refer to
`src/dbus-mppsolar.py`. -/

namespace MppSolar

/-! ## Command dispatcher: `runInverterCommands` (lines 88-230) -/

/-- Modelled from the spec: the frame codec lives in the vendored `mppsolar`
package, which is not under `src/`; per spec sections 4.1 and 7 it classifies a
failed command attempt as a transport timeout, a malformed frame, an explicit
device rejection (Nak) or an empty read, and every such failure surfaces to the
dispatcher as an error-dict result (as the `src` wrapper does itself at lines
154, 171 and 176). -/
inductive FailureKind where
  | transportTimeout
  | malformed
  | nak
  | emptyRead
  deriving DecidableEq

/-- Outcome of one `execute_command` attempt (lines 116-179): a parsed field
map (a result that is not a dict carrying an `error` key, cf. line 200), an
error dict `\x7b"error": msg\x7d`, or an exception escaping into the retry
loop's `except` clause (lines 209-216). -/
inductive AttemptResult (α : Type) where
  | ok (fm : α)
  | err (kind : FailureKind) (msg : String)
  | exn (msg : String)
  deriving DecidableEq

/-- Value held by the Python local `result` of the per-command retry loop
(lines 194-216); `pynone` is Python's `None`, its initial value. -/
inductive CmdResult (α : Type) where
  | ok (fm : α)
  | err (msg : String)
  | pynone
  deriving DecidableEq

/-- Inter-retry delay `retry_delay * (2 ** attempt)` (line 205 / line 213). -/
def retryBackoffDelay (retry_delay : ℚ) (attempt : ℕ) : ℚ :=
  retry_delay * 2 ^ attempt

/-- The retry loop for one command (lines 194-216), with `fuel` counting the
attempts still allowed (`fuel = retries - attempt`).  Returns the final
`result` together with the number of attempts executed.  The loop breaks only
on a result that is not an error dict (line 200); an error result is retried
whatever failure it stands for; an exception raised on the last attempt
becomes an error dict (line 216), on earlier attempts it leaves `result`
unchanged (lines 209-213). -/
def retryStep (oracle : ℕ → AttemptResult α) : ℕ → ℕ → CmdResult α → CmdResult α × ℕ
  | 0, _, cur => (cur, 0)
  | fuel + 1, attempt, cur =>
    match oracle attempt with
    | .ok fm => (.ok fm, 1)
    | .err _ msg =>
      if fuel = 0 then (.err msg, 1)
      else
        let r := retryStep oracle fuel (attempt + 1) (.err msg)
        (r.1, r.2 + 1)
    | .exn msg =>
      if fuel = 0 then (.err msg, 1)
      else
        let r := retryStep oracle fuel (attempt + 1) cur
        (r.1, r.2 + 1)

/-- One command of the batch: up to `retries` attempts, starting from
Python's `result = None` (line 194). -/
def runOneCommand (retries : ℕ) (oracle : ℕ → AttemptResult α) : CmdResult α × ℕ :=
  retryStep oracle retries 0 .pynone

/-- The per-command iteration of lines 192-223: one result appended per
command (line 219), commands processed in order.  `oracle i` gives the
attempt outcomes of the `i`-th command. -/
def runCommandsFrom (retries : ℕ) (oracle : ℕ → ℕ → AttemptResult α) :
    List String → ℕ → List (CmdResult α)
  | [], _ => []
  | _ :: rest, i =>
    (runOneCommand retries (oracle i)).1 :: runCommandsFrom retries oracle rest (i + 1)

/-- `runInverterCommands` (lines 88-230).  If the surrounding batch `try`
fails (device initialisation or loop machinery, lines 227-230) a full-length
list of error dicts is returned instead of partial results. -/
def runInverterCommands (commands : List String) (retries : ℕ)
    (oracle : ℕ → ℕ → AttemptResult α) (batchFailure : Option String) :
    List (CmdResult α) :=
  match batchFailure with
  | some msg => commands.map fun _ => .err ("Failed to execute command batch: " ++ msg)
  | none => runCommandsFrom retries oracle commands 0

/-! ## Protocol detection: `_detect_protocol` (lines 341-402) -/

/-- One entry of the response list returned by the `PIRI` probe: whether the
dict carries an `error` key (line 353) and whether it carries a `_command`
key (line 358). -/
structure ProbeResp where
  hasError : Bool
  hasCommand : Bool
  deriving DecidableEq

/-- Outcome of one detection attempt: the response list of
`runInverterCommands(['PIRI'], "PI18")` (line 351), or an exception caught at
lines 388-391. -/
inductive ProbeOutcome where
  | resp (rs : List ProbeResp)
  | raised (msg : String)

/-- State of the service after `_detect_protocol` returns: the protocol
string `self._invProtocol`, the returned flag, and `self._invData` (`some`
holds the probe response committed at line 363; `none` stands for the
placeholder identification data of lines 373-376 / 396-399). -/
structure DetectResult where
  invProtocol : String
  detected : Bool
  invData : Option (List ProbeResp)
  deriving DecidableEq

/-- The commit test of lines 353-365: response list truthy (nonempty), no
entry has an `error` key, and at least one entry has a `_command` key. -/
def probeAccepted (o : ProbeOutcome) : Bool :=
  match o with
  | .raised _ => false
  | .resp rs =>
    (!rs.isEmpty && rs.all fun r => !r.hasError) &&
      decide (1 ≤ rs.countP fun r => r.hasCommand)

/-- The attempt loop of `_detect_protocol` (lines 346-391).  On a response
with no error and at least one `_command` entry it commits (lines 361-365);
any other outcome (partial success `continue` at line 368, fallback path at
lines 371-386 or an exception at lines 388-391) moves on to the next attempt.
When the attempts are exhausted, lines 394-402 still assign `"PI18"` to
`self._invProtocol` with placeholder data and return `False`. -/
def detectLoop (oracle : ℕ → ProbeOutcome) : ℕ → ℕ → DetectResult
  | 0, _ => ⟨"PI18", false, none⟩
  | fuel + 1, attempt =>
    match oracle attempt with
    | .raised _ => detectLoop oracle fuel (attempt + 1)
    | .resp rs =>
      if (!rs.isEmpty && rs.all fun r => !r.hasError) = true then
        if decide (1 ≤ rs.countP fun r => r.hasCommand) = true then ⟨"PI18", true, some rs⟩
        else detectLoop oracle fuel (attempt + 1)
      else detectLoop oracle fuel (attempt + 1)

/-- `_detect_protocol` with its `max_retries = 3` (line 343). -/
def detectProtocol (oracle : ℕ → ProbeOutcome) : DetectResult :=
  detectLoop oracle 3 0

/-! ## PI30 poll cycle: `_update_PI30` (lines 641-752)

The `QPIGS` status dict is modelled field by field as `Option ℚ` (a missing
key makes `dict.get` return the default); the `QMOD` dict only contributes
`device_mode`; the `QPIWS` warnings dict is a lookup from flag name to an
optional 0/1 value.  The dbus mappings `m[...]`/`v[...]` become fields of a
`Snapshot`; Python exceptions raised inside the cycle (`TypeError` on
arithmetic with `None`, `ZeroDivisionError`) are modelled by
`Except.error`. -/

/-- Fields of the `QPIGS` response consulted by `_update_PI30`; `errorShort`
stands for `'error' in data and 'short' in data['error']` (line 651). -/
structure QpigsData where
  battery_voltage : Option ℚ := none
  battery_discharge_current : Option ℚ := none
  battery_charging_current : Option ℚ := none
  is_load_on : Option ℚ := none
  is_charging_on : Option ℚ := none
  ac_output_voltage : Option ℚ := none
  ac_output_frequency : Option ℚ := none
  ac_output_active_power : Option ℚ := none
  ac_output_aparent_power : Option ℚ := none
  ac_input_voltage : Option ℚ := none
  ac_input_frequency : Option ℚ := none
  pv_input_voltage : Option ℚ := none
  pv_input_power : Option ℚ := none
  inverter_heat_sink_temperature : Option ℚ := none
  errorShort : Bool := false
  deriving DecidableEq

/-- The state projection of lines 656-667.  The `if/elif/else` chain covers
every case, so the earlier assignment `m['/State'] = 0` of the
`errorShort` branch (line 652) is always overwritten and does not reach the
snapshot. -/
def statePI30 (deviceMode : Option String) (charging : ℚ) : ℚ :=
  if deviceMode = some "Battery" then 9
  else if deviceMode = some "Line" then (if charging = 1 then 3 else 8)
  else if deviceMode = some "Standby" then charging * 6
  else 0

/-- `getWarning` (lines 729-733): a missing flag maps to 1, a present flag
`v` maps to `int(v) * 2`.  Flag values are modelled as integers (the device
reports 0/1). -/
def getWarning (warnings : String → Option ℤ) (key : String) : ℤ :=
  match warnings key with
  | none => 1
  | some v => v * 2

/-- `get_warning` inside `_process_warnings` (lines 1271-1275), textually the
same mapping as `getWarning`. -/
def get_warning (warnings : String → Option ℤ) (key : String) : ℤ :=
  match warnings key with
  | none => 1
  | some v => v * 2

/-- Small-output-power reconstruction (lines 683-691).  Returns the value of
`m['/Ac/Out/L1/P']` after the block together with the new `self._dcLast`.
The guard also requires `m['/Dc/0/Current'] != None`, which always holds
since line 672 assigns it `-data.get('battery_discharge_current', 0)`.
`self._dcLast = m['/Ac/Out/L1/P'] or 0` (line 689) equals `power - 27`
because `0 or 0` is `0`. -/
def smallPowerRecon (dcSystem dcVoltage acOutP0 : Option ℚ) (load_on dcLast : ℚ) :
    Option ℚ × ℚ :=
  match dcSystem with
  | some ds =>
    if acOutP0 = some 0 ∧ load_on = 1 ∧ dcVoltage.isSome = true then
      let dcPower := ds + dcLast + 27
      let power1 := if dcPower < 27 then 27 else dcPower
      let power := if power1 > 100 then 100 else power1
      (some (power - 27), power - 27)
    else (acOutP0, 0)
  | none => (acOutP0, 0)

/-- AC-charging-current estimation (lines 693-699).  Returns
`(self._chargeLast, charging_ac_current)` after the block.  The division at
line 697 has no guard: with `m['/Dc/0/Voltage']` equal to `None` Python
raises `TypeError`, with `0` it raises `ZeroDivisionError`; both abort the
cycle. -/
def acChargeGuess (guessAc : Bool) (dcSystem dcVoltage : Option ℚ)
    (charging_ac chargeLast cac0 : ℚ) : Except String (ℚ × ℚ) :=
  match dcSystem with
  | some ds =>
    if guessAc = true ∧ charging_ac = 1 then
      match dcVoltage with
      | none => .error "TypeError: unsupported operand type(s) for /: NoneType"
      | some v =>
        if v = 0 then .error "ZeroDivisionError: float division by zero"
        else .ok (ds + chargeLast - 30, -(ds + chargeLast - 30) / v)
    else .ok (0, cac0)
  | none => .ok (0, cac0)

/-- AC-input active power derivation (lines 710-716).  With the state `0` the
input power is unknown (line 712); otherwise line 715 multiplies by
`m['/Dc/0/Voltage']`, raising `TypeError` when the voltage is `None`
(`charging_ac * charging_ac_current * None` raises even when the factor is
0). -/
def acInputPower (state : ℚ) (deviceMode : Option String) (acOutP2 dcVoltage : Option ℚ)
    (charging_ac cac1 : ℚ) : Except String (Option ℚ) :=
  if state = 0 then .ok none
  else
    let base : Option ℚ := if deviceMode = some "Battery" then some 0 else acOutP2
    match dcVoltage with
    | none => .error "TypeError: unsupported operand type(s) for *: NoneType"
    | some v => .ok (some (base.getD 0 + charging_ac * cac1 * v))

/-- `m['/Dc/0/Voltage'] or 27` (line 723): Python `or` replaces the falsy
values `None` and `0` by the fallback 27. -/
def voltageOr27 (v : Option ℚ) : ℚ :=
  match v with
  | none => 27
  | some x => if x = 0 then 27 else x

/-- The canonical snapshot written to the dbus paths by one `_update_PI30`
cycle. -/
structure Snapshot where
  state : ℚ
  dcVoltage : Option ℚ
  dcCurrent : ℚ
  acOutV : Option ℚ
  acOutF : Option ℚ
  acOutP : Option ℚ
  acOutS : Option ℚ
  acIn1V : Option ℚ
  acIn1F : Option ℚ
  acIn1P : Option ℚ
  pvV : Option ℚ
  pvP : Option ℚ
  mppOperationMode : ℚ
  alarmConnection : ℤ
  alarmHighTemperature : ℤ
  alarmOverload : ℤ
  alarmHighVoltage : ℤ
  alarmLowVoltage : ℤ
  alarmHighVoltageAcOut : ℤ
  alarmLowVoltageAcOut : ℤ
  alarmHighDcVoltage : ℤ
  alarmLowDcVoltage : ℤ
  alarmLineFail : ℤ
  temperature : Option ℚ
  deriving DecidableEq

/-- The body of `_update_PI30` (lines 641-752) as a function of the three
command responses, the external DC power reading and the carry state
`(self._dcLast, self._chargeLast)`.  Returns the snapshot and the new carry,
or the message of the Python exception aborting the cycle.  The
`errorShort` branch of lines 651-653 sets `/State` and `/Alarms/Connection`,
but both are overwritten before the cycle ends (state by the exhaustive
chain at lines 656-667, the connection alarm at line 734), so the branch
leaves no trace in the snapshot.  Line 723 reads `self._dcLast` after line
689 updated it, hence the new carry appears in the DC-current adjustment. -/
def updatePI30 (bypass guessAc : Bool) (data : QpigsData) (deviceMode : Option String)
    (warnings : String → Option ℤ) (dcSystem : Option ℚ) (dcLast chargeLast : ℚ) :
    Except String (Snapshot × ℚ × ℚ) :=
  let charging_flag : ℚ := data.is_charging_on.getD 0
  let state : ℚ := statePI30 deviceMode charging_flag
  let dcVoltage : Option ℚ := data.battery_voltage
  let dcCurrent0 : ℚ := -(data.battery_discharge_current.getD 0)
  let cac0 : ℚ := data.battery_charging_current.getD 0
  let load_on : ℚ := data.is_load_on.getD 0
  let charging_ac : ℚ := data.is_charging_on.getD 0
  let recon := smallPowerRecon dcSystem dcVoltage data.ac_output_active_power load_on dcLast
  match acChargeGuess guessAc dcSystem dcVoltage charging_ac chargeLast cac0 with
  | .error e => .error e
  | .ok cg =>
    let acOutP2 : Option ℚ := if bypass = true ∧ load_on = 0 then none else recon.1
    let acOutS2 : Option ℚ :=
      if bypass = true ∧ load_on = 0 then none else data.ac_output_aparent_power
    match acInputPower state deviceMode acOutP2 dcVoltage charging_ac cg.2 with
    | .error e => .error e
    | .ok acInP =>
      let pvP := data.pv_input_power
      let snap : Snapshot :=
        { state := state
          dcVoltage := dcVoltage
          dcCurrent := dcCurrent0 + charging_ac * cg.2 - recon.2 / voltageOr27 dcVoltage
          acOutV := data.ac_output_voltage
          acOutF := data.ac_output_frequency
          acOutP := acOutP2
          acOutS := acOutS2
          acIn1V := data.ac_input_voltage
          acIn1F := data.ac_input_frequency
          acIn1P := acInP
          pvV := data.pv_input_voltage
          pvP := pvP
          mppOperationMode :=
            match pvP with
            | some p => if p > 0 then 2 else 0
            | none => 0
          alarmConnection := 0
          alarmHighTemperature := getWarning warnings "over_temperature_fault"
          alarmOverload := getWarning warnings "overload_fault"
          alarmHighVoltage := getWarning warnings "bus_over_fault"
          alarmLowVoltage := getWarning warnings "bus_under_fault"
          alarmHighVoltageAcOut := getWarning warnings "inverter_voltage_too_high_fault"
          alarmLowVoltageAcOut := getWarning warnings "inverter_voltage_too_low_fault"
          alarmHighDcVoltage := getWarning warnings "battery_voltage_to_high_fault"
          alarmLowDcVoltage := getWarning warnings "battery_low_alarm_warning"
          alarmLineFail := getWarning warnings "line_fail_warning"
          temperature := data.inverter_heat_sink_temperature }
      .ok (snap, recon.2, cg.1)

/-! ## The `_update` wrapper (lines 556-614) and `_change` (lines 616-639) -/

/-- Outcome of the protocol-specific update handler call at lines 579-590 as
seen by `_update`: a returned `True`, a returned `False`, or an exception
propagating into the handler at lines 604-614. -/
inductive UpdOutcome where
  | success
  | failure
  | raised (msg : String)
  deriving DecidableEq

/-- The service state touched by `_update`: `self._last_update` and the
`/Status` counters. -/
structure UpdState where
  lastUpdateTime : ℚ
  updateCount : ℕ
  errorCount : ℕ
  lastError : String
  deriving DecidableEq

/-- Effect of one `_update` call: the new state, the value returned to the
GLib timer, and whether `mainloop.quit()` was called. -/
structure UpdResult where
  state : UpdState
  returned : Bool
  quitMainloop : Bool
  deriving DecidableEq

/-- `_update` (lines 556-614).  The throttle at lines 565-567 skips the cycle
entirely.  On handler success, lines 594-597 record the timestamp, bump
`/Status/UpdateCount` and clear `/Status/LastError`; on a returned failure,
lines 598-600 bump `/Status/ErrorCount` and set `/Status/LastError` to
`'Update failed'`; on an exception, lines 604-614 bump `/Status/ErrorCount`,
set `/Status/LastError` to `str(e)` and call `mainloop.quit()`. -/
def updateCycle (s : UpdState) (interval now : ℚ) (outcome : UpdOutcome) : UpdResult :=
  if now - s.lastUpdateTime < interval then ⟨s, true, false⟩
  else
    match outcome with
    | .success =>
      ⟨{ s with lastUpdateTime := now, updateCount := s.updateCount + 1, lastError := "" },
        true, false⟩
    | .failure =>
      ⟨{ s with errorCount := s.errorCount + 1, lastError := "Update failed" }, false, false⟩
    | .raised msg =>
      ⟨{ s with errorCount := s.errorCount + 1, lastError := msg }, false, true⟩

/-- Outcome of the protocol-specific `_change_XXX` dispatch at lines 623-635:
a returned boolean, or an exception caught at lines 636-639. -/
inductive ChangeOutcome where
  | handled (accepted : Bool)
  | raised (msg : String)
  deriving DecidableEq

/-- Effect of one `_change` callback: the returned value and whether
`mainloop.quit()` was called. -/
structure ChangeResult where
  returned : Bool
  quitMainloop : Bool
  deriving DecidableEq

/-- `_change` (lines 616-639).  A write to `/Settings/Reset` calls
`mainloop.quit()` deliberately (the bare `exit` at line 622 is a no-op
expression, so control still falls through to the dispatch); an exception in
the protocol dispatch also calls `mainloop.quit()` and returns `False`
(lines 636-639). -/
def changeCallback (path : String) (outcome : ChangeOutcome) : ChangeResult :=
  let resetQuit : Bool := path = "/Settings/Reset"
  match outcome with
  | .handled b => ⟨b, resetQuit⟩
  | .raised _ => ⟨false, true⟩

/-- Whether an `Except` computation succeeded (the poll cycle completed
without a Python exception). -/
def isOkE {α : Type} (e : Except String α) : Bool :=
  match e with
  | .ok _ => true
  | .error _ => false

/-! ## Concrete instances used by witnesses and counterexamples -/

/-- The three status commands of the PI30 poll cycle (line 642). -/
def cmdsPoll : List String := ["QPIGS", "QMOD", "QPIWS"]

/-- An attempt oracle where every attempt of every command times out. -/
def timeoutOracle : ℕ → ℕ → AttemptResult Unit :=
  fun _ _ => .err .transportTimeout "No response"

/-- An oracle whose probe succeeds immediately: one error-free,
command-tagged response entry. -/
def goodProbe : ℕ → ProbeOutcome := fun _ => ProbeOutcome.resp [⟨false, true⟩]

/-- A concrete warnings dict: `overload_fault` raised, `bus_over_fault`
present but clear, everything else absent. -/
def wFlags : String → Option ℤ := fun k =>
  if k = "overload_fault" then some 1 else if k = "bus_over_fault" then some 0 else none

/-- The empty warnings dict: every flag absent. -/
def wNone : String → Option ℤ := fun _ => none

/-- Snapshot produced by a PI30 cycle over an all-absent status dict (load
reported off, so the bypass assumption blanks the output powers). -/
def snapAllNone : Snapshot :=
  { state := 0, dcVoltage := none, dcCurrent := 0,
    acOutV := none, acOutF := none, acOutP := none, acOutS := none,
    acIn1V := none, acIn1F := none, acIn1P := none,
    pvV := none, pvP := none, mppOperationMode := 0,
    alarmConnection := 0,
    alarmHighTemperature := 1, alarmOverload := 1, alarmHighVoltage := 1,
    alarmLowVoltage := 1, alarmHighVoltageAcOut := 1, alarmLowVoltageAcOut := 1,
    alarmHighDcVoltage := 1, alarmLowDcVoltage := 1, alarmLineFail := 1,
    temperature := none }

/-- Status data of a cycle in battery mode: battery voltage present,
charging off, everything else absent. -/
def dBattery : QpigsData := { battery_voltage := some 24, is_charging_on := some 0 }

/-- Snapshot of the `dBattery` cycle under mode token `'Battery'`. -/
def snapBattery : Snapshot :=
  { state := 9, dcVoltage := some 24, dcCurrent := 0,
    acOutV := none, acOutF := none, acOutP := none, acOutS := none,
    acIn1V := none, acIn1F := none, acIn1P := some 0,
    pvV := none, pvP := none, mppOperationMode := 0,
    alarmConnection := 0,
    alarmHighTemperature := 1, alarmOverload := 1, alarmHighVoltage := 1,
    alarmLowVoltage := 1, alarmHighVoltageAcOut := 1, alarmLowVoltageAcOut := 1,
    alarmHighDcVoltage := 1, alarmLowDcVoltage := 1, alarmLineFail := 1,
    temperature := none }

/-- Status data with the load reported off but a nonzero raw output power:
the bypass assumption must blank it. -/
def dLoadOff : QpigsData :=
  { is_load_on := some 0, ac_output_active_power := some 0,
    ac_output_aparent_power := some 0 }

/-- Snapshot of the `dLoadOff` cycle: output powers are `None` although the
raw payload reported 0. -/
def snapLoadOff : Snapshot :=
  { state := 0, dcVoltage := none, dcCurrent := 0,
    acOutV := none, acOutF := none, acOutP := none, acOutS := none,
    acIn1V := none, acIn1F := none, acIn1P := none,
    pvV := none, pvP := none, mppOperationMode := 0,
    alarmConnection := 0,
    alarmHighTemperature := 1, alarmOverload := 1, alarmHighVoltage := 1,
    alarmLowVoltage := 1, alarmHighVoltageAcOut := 1, alarmLowVoltageAcOut := 1,
    alarmHighDcVoltage := 1, alarmLowDcVoltage := 1, alarmLineFail := 1,
    temperature := none }

/-- Status data for the C8 counterexample: output power 0, load connected,
battery voltage absent. -/
def dNoVolt : QpigsData := { ac_output_active_power := some 0, is_load_on := some 1 }

/-- Snapshot of the `dNoVolt` cycle with external DC power 50: output power
stays 0, carry stays 0. -/
def snapNoVolt : Snapshot :=
  { state := 0, dcVoltage := none, dcCurrent := 0,
    acOutV := none, acOutF := none, acOutP := some 0, acOutS := none,
    acIn1V := none, acIn1F := none, acIn1P := none,
    pvV := none, pvP := none, mppOperationMode := 0,
    alarmConnection := 0,
    alarmHighTemperature := 1, alarmOverload := 1, alarmHighVoltage := 1,
    alarmLowVoltage := 1, alarmHighVoltageAcOut := 1, alarmLowVoltageAcOut := 1,
    alarmHighDcVoltage := 1, alarmLowDcVoltage := 1, alarmLineFail := 1,
    temperature := none }

/-- Status data for the C8 witness: output power 0, load connected, battery
voltage 24, charging off. -/
def dRecon : QpigsData :=
  { battery_voltage := some 24, is_load_on := some 1, is_charging_on := some 0,
    ac_output_active_power := some 0 }

/-- Snapshot of the `dRecon` cycle under mode `'Battery'` with external DC
power 50: estimated output power 50, carry 50. -/
def snapRecon : Snapshot :=
  { state := 9, dcVoltage := some 24, dcCurrent := -(25 / 12),
    acOutV := none, acOutF := none, acOutP := some 50, acOutS := none,
    acIn1V := none, acIn1F := none, acIn1P := some 0,
    pvV := none, pvP := none, mppOperationMode := 0,
    alarmConnection := 0,
    alarmHighTemperature := 1, alarmOverload := 1, alarmHighVoltage := 1,
    alarmLowVoltage := 1, alarmHighVoltageAcOut := 1, alarmLowVoltageAcOut := 1,
    alarmHighDcVoltage := 1, alarmLowDcVoltage := 1, alarmLineFail := 1,
    temperature := none }

/-- Status data with charging active and a nonzero battery voltage. -/
def dCharge : QpigsData := { battery_voltage := some 24, is_charging_on := some 1 }

/-! ## Helper lemmas -/

lemma retryStep_snd_le (oracle : ℕ → AttemptResult α) :
    ∀ (fuel attempt : ℕ) (cur : CmdResult α), (retryStep oracle fuel attempt cur).2 ≤ fuel := by
  intro fuel
  induction fuel with
  | zero => intro attempt cur; simp [retryStep]
  | succ n ih =>
    intro attempt cur
    cases h : oracle attempt with
    | ok fm => simp [retryStep, h]
    | err k msg =>
      rcases Nat.eq_zero_or_pos n with hn | hn
      · subst hn; simp [retryStep, h]
      · have hne : ¬n = 0 := Nat.pos_iff_ne_zero.mp hn
        have := ih (attempt + 1) (.err msg)
        simp only [retryStep, h, hne, if_false]
        omega
    | exn msg =>
      rcases Nat.eq_zero_or_pos n with hn | hn
      · subst hn; simp [retryStep, h]
      · have hne : ¬n = 0 := Nat.pos_iff_ne_zero.mp hn
        have := ih (attempt + 1) cur
        simp only [retryStep, h, hne, if_false]
        omega

lemma retryStep_snd_allFail (oracle : ℕ → AttemptResult α)
    (hfail : ∀ i, ∀ a, oracle i ≠ .ok a) :
    ∀ (fuel attempt : ℕ) (cur : CmdResult α), (retryStep oracle fuel attempt cur).2 = fuel := by
  intro fuel
  induction fuel with
  | zero => intro attempt cur; simp [retryStep]
  | succ n ih =>
    intro attempt cur
    cases h : oracle attempt with
    | ok fm => exact absurd h (hfail attempt fm)
    | err k msg =>
      rcases Nat.eq_zero_or_pos n with hn | hn
      · subst hn; simp [retryStep, h]
      · have hne : ¬n = 0 := Nat.pos_iff_ne_zero.mp hn
        have := ih (attempt + 1) (.err msg)
        simp only [retryStep, h, hne, if_false]
        omega
    | exn msg =>
      rcases Nat.eq_zero_or_pos n with hn | hn
      · subst hn; simp [retryStep, h]
      · have hne : ¬n = 0 := Nat.pos_iff_ne_zero.mp hn
        have := ih (attempt + 1) cur
        simp only [retryStep, h, hne, if_false]
        omega

lemma retryStep_fst_ne_pynone (oracle : ℕ → AttemptResult α) :
    ∀ (fuel attempt : ℕ) (cur : CmdResult α), 0 < fuel →
      (retryStep oracle fuel attempt cur).1 ≠ .pynone := by
  intro fuel
  induction fuel with
  | zero => intro attempt cur h; omega
  | succ n ih =>
    intro attempt cur _
    cases h : oracle attempt with
    | ok fm => simp [retryStep, h]
    | err k msg =>
      rcases Nat.eq_zero_or_pos n with hn | hn
      · subst hn; simp [retryStep, h]
      · have hne : ¬n = 0 := Nat.pos_iff_ne_zero.mp hn
        have := ih (attempt + 1) (.err msg) hn
        simp only [retryStep, h, hne, if_false]
        exact this
    | exn msg =>
      rcases Nat.eq_zero_or_pos n with hn | hn
      · subst hn; simp [retryStep, h]
      · have hne : ¬n = 0 := Nat.pos_iff_ne_zero.mp hn
        have := ih (attempt + 1) cur hn
        simp only [retryStep, h, hne, if_false]
        exact this

lemma runCommandsFrom_eq (retries : ℕ) (oracle : ℕ → ℕ → AttemptResult α) :
    ∀ (cmds : List String) (i : ℕ),
      runCommandsFrom retries oracle cmds i
        = (List.range cmds.length).map fun j => (runOneCommand retries (oracle (i + j))).1 := by
  intro cmds
  induction cmds with
  | nil => intro i; simp [runCommandsFrom]
  | cons c rest ih =>
    intro i
    simp only [runCommandsFrom, List.length_cons, List.range_succ_eq_map, List.map_cons,
      List.map_map]
    refine List.cons_eq_cons.mpr ⟨by simp, ?_⟩
    rw [ih (i + 1)]
    refine List.map_congr_left fun j _ => ?_
    have hj : i + 1 + j = i + (j + 1) := by omega
    simp [Function.comp, hj]

lemma exists_lt_succ_shift (P : ℕ → Prop) (a n : ℕ) :
    (∃ k, k < n + 1 ∧ P (a + k)) ↔ P a ∨ ∃ k, k < n ∧ P (a + 1 + k) := by
  constructor
  · rintro ⟨k, hk, hp⟩
    match k with
    | 0 => exact Or.inl (by simpa using hp)
    | k + 1 =>
      refine Or.inr ⟨k, by omega, ?_⟩
      have h : a + (k + 1) = a + 1 + k := by omega
      rwa [h] at hp
  · rintro (hp | ⟨k, hk, hp⟩)
    · exact ⟨0, by omega, by simpa using hp⟩
    · refine ⟨k + 1, by omega, ?_⟩
      have h : a + (k + 1) = a + 1 + k := by omega
      rwa [h]

lemma detectLoop_invProtocol (oracle : ℕ → ProbeOutcome) :
    ∀ (fuel attempt : ℕ), (detectLoop oracle fuel attempt).invProtocol = "PI18" := by
  intro fuel
  induction fuel with
  | zero => intro attempt; simp [detectLoop]
  | succ n ih =>
    intro attempt
    cases h : oracle attempt with
    | raised msg =>
      simp only [detectLoop, h]
      exact ih (attempt + 1)
    | resp rs =>
      simp only [detectLoop, h]
      by_cases h1 : (!rs.isEmpty && rs.all fun r => !r.hasError) = true
      · rw [if_pos h1]
        by_cases h2 : decide (1 ≤ rs.countP fun r => r.hasCommand) = true
        · rw [if_pos h2]
        · rw [if_neg h2]; exact ih (attempt + 1)
      · rw [if_neg h1]; exact ih (attempt + 1)

lemma detectLoop_detected (oracle : ℕ → ProbeOutcome) :
    ∀ (fuel attempt : ℕ),
      (detectLoop oracle fuel attempt).detected = true ↔
        ∃ k, k < fuel ∧ probeAccepted (oracle (attempt + k)) = true := by
  intro fuel
  induction fuel with
  | zero => intro attempt; simp [detectLoop]
  | succ n ih =>
    intro attempt
    rw [exists_lt_succ_shift (fun j => probeAccepted (oracle j) = true) attempt n]
    cases h : oracle attempt with
    | raised msg =>
      have hacc : probeAccepted (ProbeOutcome.raised msg) = false := rfl
      simp only [detectLoop, h]
      rw [ih (attempt + 1)]
      simp [hacc]
    | resp rs =>
      simp only [detectLoop, h]
      by_cases h1 : (!rs.isEmpty && rs.all fun r => !r.hasError) = true
      · rw [if_pos h1]
        by_cases h2 : decide (1 ≤ rs.countP fun r => r.hasCommand) = true
        · rw [if_pos h2]
          have hacc : probeAccepted (ProbeOutcome.resp rs) = true := by
            simp only [probeAccepted]
            rw [h1, h2]
            rfl
          constructor
          · intro _; exact Or.inl hacc
          · intro _; rfl
        · rw [if_neg h2]
          have h2f : decide (1 ≤ rs.countP fun r => r.hasCommand) = false := by
            rcases Bool.eq_false_or_eq_true (decide (1 ≤ rs.countP fun r => r.hasCommand))
              with ht | hf
            · exact absurd ht h2
            · exact hf
          have hacc : probeAccepted (ProbeOutcome.resp rs) = false := by
            simp only [probeAccepted]
            rw [h2f, Bool.and_false]
          rw [ih (attempt + 1)]
          simp [hacc]
      · rw [if_neg h1]
        have h1f : (!rs.isEmpty && rs.all fun r => !r.hasError) = false := by
          rcases Bool.eq_false_or_eq_true (!rs.isEmpty && rs.all fun r => !r.hasError)
            with ht | hf
          · exact absurd ht h1
          · exact hf
        have hacc : probeAccepted (ProbeOutcome.resp rs) = false := by
          simp only [probeAccepted]
          rw [h1f, Bool.false_and]
        rw [ih (attempt + 1)]
        simp [hacc]

lemma ite_lt27_eq_max (x : ℚ) : (if x < 27 then (27 : ℚ) else x) = max 27 x := by
  rcases lt_or_le x 27 with h | h
  · rw [if_pos h, max_eq_left h.le]
  · rw [if_neg (not_lt.mpr h), max_eq_right h]

lemma ite_gt100_eq_min (y : ℚ) : (if y > 100 then (100 : ℚ) else y) = min 100 y := by
  rcases le_or_lt y 100 with h | h
  · rw [if_neg (not_lt.mpr h), min_eq_right h]
  · rw [if_pos h, min_eq_left h.le]

lemma smallPowerRecon_pos {ds : ℚ} {dcVoltage acOutP0 : Option ℚ} {load_on dcLast : ℚ}
    (h1 : acOutP0 = some 0) (h2 : load_on = 1) (h3 : dcVoltage.isSome = true) :
    smallPowerRecon (some ds) dcVoltage acOutP0 load_on dcLast
      = (some (min 100 (max 27 (ds + dcLast + 27)) - 27),
         min 100 (max 27 (ds + dcLast + 27)) - 27) := by
  simp only [smallPowerRecon, if_pos (And.intro h1 (And.intro h2 h3))]
  rw [ite_lt27_eq_max, ite_gt100_eq_min]

lemma smallPowerRecon_neg {dcs dcVoltage acOutP0 : Option ℚ} {load_on dcLast : ℚ}
    (h : dcs = none ∨ ¬(acOutP0 = some 0 ∧ load_on = 1 ∧ dcVoltage.isSome = true)) :
    smallPowerRecon dcs dcVoltage acOutP0 load_on dcLast = (acOutP0, 0) := by
  rcases h with h | h
  · subst h; rfl
  · cases dcs with
    | none => rfl
    | some ds => simp only [smallPowerRecon, if_neg h]

lemma clamp_sub27_bounds (x : ℚ) :
    0 ≤ min 100 (max 27 x) - 27 ∧ min 100 (max 27 x) - 27 ≤ 73 := by
  have h27 : (27 : ℚ) ≤ min 100 (max 27 x) := le_min (by norm_num) (le_max_left _ _)
  have h100 : min 100 (max 27 x) ≤ 100 := min_le_left _ _
  constructor <;> linarith

lemma updatePI30_ok_spec {bypass guessAc : Bool} {data : QpigsData} {dm : Option String}
    {w : String → Option ℤ} {dcs : Option ℚ} {dl cl : ℚ} {snap : Snapshot} {dcL chL : ℚ}
    (h : updatePI30 bypass guessAc data dm w dcs dl cl = .ok (snap, dcL, chL)) :
    snap.state = statePI30 dm (data.is_charging_on.getD 0) ∧
    snap.alarmConnection = 0 ∧
    dcL = (smallPowerRecon dcs data.battery_voltage data.ac_output_active_power
      (data.is_load_on.getD 0) dl).2 ∧
    snap.acOutP = (if bypass = true ∧ data.is_load_on.getD 0 = 0 then none
      else (smallPowerRecon dcs data.battery_voltage data.ac_output_active_power
        (data.is_load_on.getD 0) dl).1) ∧
    snap.acOutS = (if bypass = true ∧ data.is_load_on.getD 0 = 0 then none
      else data.ac_output_aparent_power) ∧
    (snap.alarmHighTemperature = getWarning w "over_temperature_fault" ∧
     snap.alarmOverload = getWarning w "overload_fault" ∧
     snap.alarmHighVoltage = getWarning w "bus_over_fault" ∧
     snap.alarmLowVoltage = getWarning w "bus_under_fault" ∧
     snap.alarmHighVoltageAcOut = getWarning w "inverter_voltage_too_high_fault" ∧
     snap.alarmLowVoltageAcOut = getWarning w "inverter_voltage_too_low_fault" ∧
     snap.alarmHighDcVoltage = getWarning w "battery_voltage_to_high_fault" ∧
     snap.alarmLowDcVoltage = getWarning w "battery_low_alarm_warning" ∧
     snap.alarmLineFail = getWarning w "line_fail_warning") ∧
    (∃ cac1 : ℚ, snap.dcCurrent = -(data.battery_discharge_current.getD 0) +
      data.is_charging_on.getD 0 * cac1 - dcL / voltageOr27 data.battery_voltage) := by
  simp only [updatePI30] at h
  split at h
  · simp at h
  · split at h
    · simp at h
    · rw [Except.ok.injEq, Prod.mk.injEq, Prod.mk.injEq] at h
      obtain ⟨hs, hd, hc⟩ := h
      subst hs hd hc
      refine ⟨rfl, rfl, rfl, rfl, rfl, ⟨rfl, rfl, rfl, rfl, rfl, rfl, rfl, rfl, rfl⟩, ?_⟩
      exact ⟨_, rfl⟩

lemma isOkE_updatePI30_iff (bypass guessAc : Bool) (data : QpigsData) (dm : Option String)
    (w : String → Option ℤ) (dcs : Option ℚ) (dl cl : ℚ) :
    isOkE (updatePI30 bypass guessAc data dm w dcs dl cl) = true ↔
      ∃ cg : ℚ × ℚ,
        acChargeGuess guessAc dcs data.battery_voltage (data.is_charging_on.getD 0) cl
          (data.battery_charging_current.getD 0) = .ok cg ∧
        ∃ p, acInputPower (statePI30 dm (data.is_charging_on.getD 0)) dm
          (if bypass = true ∧ data.is_load_on.getD 0 = 0 then none
            else (smallPowerRecon dcs data.battery_voltage data.ac_output_active_power
              (data.is_load_on.getD 0) dl).1)
          data.battery_voltage (data.is_charging_on.getD 0) cg.2 = .ok p := by
  simp only [updatePI30]
  split
  · rename_i e heq
    simp [isOkE, heq]
  · rename_i cg heq
    split
    · rename_i e heq2
      simp only [isOkE]
      constructor
      · intro hcontra
        simp at hcontra
      · rintro ⟨cg2, hcg2, p, hp⟩
        rw [heq] at hcg2
        injection hcg2 with hcg3
        subst hcg3
        rw [heq2] at hp
        exact Except.noConfusion hp
    · simp only [isOkE]
      constructor
      · intro _
        exact ⟨_, by assumption, _, by assumption⟩
      · intro _
        trivial

lemma acInputPower_some_isOk (st : ℚ) (dm : Option String) (base : Option ℚ)
    (v ca cc : ℚ) : ∃ p, acInputPower st dm base (some v) ca cc = .ok p := by
  unfold acInputPower
  by_cases hst : st = 0
  · rw [if_pos hst]
    exact ⟨none, rfl⟩
  · rw [if_neg hst]
    exact ⟨_, rfl⟩

/-! ## Claim C2 -/

/-- C2: for every ordered list of commands and any mix of per-command
outcomes (success, timeout, rejection, exception), `runInverterCommands`
returns a list with exactly one result per input command, in input order
(the `j`-th result comes from the `j`-th command's retry loop), and — with
the positive retry budget every caller uses (default 3) — each failing
command yields an error result rather than being omitted; it never returns
fewer results than commands requested, even when the whole batch fails. -/
theorem C2_dispatcher_complete {α : Type} (cmds : List String) (retries : ℕ)
    (oracle : ℕ → ℕ → AttemptResult α) (batchFailure : Option String) :
    (runInverterCommands cmds retries oracle batchFailure).length = cmds.length ∧
    (batchFailure = none → runInverterCommands cmds retries oracle batchFailure
      = (List.range cmds.length).map fun j => (runOneCommand retries (oracle j)).1) ∧
    (0 < retries → ∀ r ∈ runInverterCommands cmds retries oracle batchFailure,
      r ≠ CmdResult.pynone) := by
  refine ⟨?_, ?_, ?_⟩
  · cases batchFailure with
    | some msg => simp [runInverterCommands]
    | none =>
      simp only [runInverterCommands]
      rw [runCommandsFrom_eq]
      simp
  · intro hbf
    subst hbf
    simp only [runInverterCommands]
    rw [runCommandsFrom_eq]
    simp
  · intro hr r hmem
    cases batchFailure with
    | some msg =>
      simp only [runInverterCommands, List.mem_map] at hmem
      obtain ⟨c, _, hc⟩ := hmem
      rw [← hc]
      simp
    | none =>
      simp only [runInverterCommands] at hmem
      rw [runCommandsFrom_eq] at hmem
      simp only [List.mem_map, List.mem_range] at hmem
      obtain ⟨j, _, hj⟩ := hmem
      rw [← hj]
      simpa [runOneCommand] using retryStep_fst_ne_pynone (oracle (0 + j)) retries 0 _ hr

/-- Witness for C2: at the concrete PI30 batch with every attempt timing
out, no result slot is left as Python `None`. -/
theorem C2_witness : CmdResult.pynone ∉ runInverterCommands cmdsPoll 3 timeoutOracle none :=
  fun hmem =>
    (C2_dispatcher_complete cmdsPoll 3 timeoutOracle none).2.2 (by decide)
      CmdResult.pynone hmem rfl

/-! ## Claim C3 -/

/-- C3 counterexample: the retry loop of lines 195-216 retries on any error
result and has no early stop for a Nak: a command whose device answer is an
explicit rejection on every attempt is executed 3 times (the full
`retries = 3` budget), whereas the claim mandates a single attempt for a
Nak. -/
theorem C3_counterexample :
    (runOneCommand (α := Unit) 3 (fun _ => AttemptResult.err FailureKind.nak "NAK")).2 = 3 ∧
    (3 : ℕ) ≠ 1 := by
  refine ⟨rfl, by decide⟩

/-- C3 as amended: every failing attempt — transport timeout, malformed
response and explicit device rejection (Nak) alike, since the loop's only
success test is the absence of an `error` key (line 200) — is retried, up
to `maxRetries` (default 3) attempts in total, and the inter-retry delay
`retryDelay * 2 ^ attempt` is strictly increasing across consecutive
retries of the same command. -/
theorem C3_retry_policy :
    (∀ {α : Type} (oracle : ℕ → AttemptResult α),
       (∀ i, ∀ a, oracle i ≠ .ok a) → (runOneCommand 3 oracle).2 = 3) ∧
    (∀ {α : Type} (oracle : ℕ → AttemptResult α) (retries : ℕ),
       (runOneCommand retries oracle).2 ≤ retries) ∧
    (∀ (d : ℚ) (attempt : ℕ), 0 < d →
       retryBackoffDelay d attempt < retryBackoffDelay d (attempt + 1)) := by
  refine ⟨?_, ?_, ?_⟩
  · intro α oracle hfail
    exact retryStep_snd_allFail oracle hfail 3 0 _
  · intro α oracle retries
    exact retryStep_snd_le oracle retries 0 _
  · intro d a hd
    have hstep : retryBackoffDelay d (a + 1) = 2 * retryBackoffDelay d a := by
      simp only [retryBackoffDelay, pow_succ]
      ring
    have hpos : 0 < retryBackoffDelay d a := by
      simp only [retryBackoffDelay]
      positivity
    rw [hstep]
    linarith

/-- Witness for C3: a command failing with a malformed response on every
attempt uses the full budget of 3 attempts, and the backoff delay grows
strictly from attempt 0 to attempt 1 at the default `retry_delay = 0.5`. -/
theorem C3_witness :
    (runOneCommand (α := Unit) 3
      (fun _ => AttemptResult.err FailureKind.malformed "bad CRC")).2 = 3 ∧
    retryBackoffDelay (1 / 2) 0 < retryBackoffDelay (1 / 2) 1 :=
  ⟨C3_retry_policy.1 (fun _ => .err .malformed "bad CRC")
      (fun _ a h => AttemptResult.noConfusion h),
   C3_retry_policy.2.2 (1 / 2) 0 (by norm_num)⟩

/-! ## Claim C4 -/

/-- C4 counterexample: when every probe attempt fails (each `PIRI` response
carries an `error` key), `_detect_protocol` reports failure yet still
assigns `"PI18"` as the active protocol `self._invProtocol` — the dialect
every later `_update`/`_change` dispatch uses — so the service commits to a
dialect whose identification probe did not succeed, and no other candidate
dialect is ever probed. -/
theorem C4_counterexample :
    (detectProtocol fun _ => ProbeOutcome.resp [⟨true, false⟩]).detected = false ∧
    (detectProtocol fun _ => ProbeOutcome.resp [⟨true, false⟩]).invProtocol = "PI18" := by
  refine ⟨by decide, by decide⟩

/-- C4 as amended: protocol detection probes only the single dialect PI18
(there is no candidate list), retrying the `PIRI` identification command up
to 3 attempts; it commits — with the probe response as identification data —
exactly when some attempt returns a nonempty, error-free response containing
at least one command-tagged entry; when all attempts fail it still installs
PI18 as the active protocol, with placeholder identification data, and
reports the failure by returning `False`. -/
theorem C4_detection (oracle : ℕ → ProbeOutcome) :
    (detectProtocol oracle).invProtocol = "PI18" ∧
    ((detectProtocol oracle).detected = true ↔
      ∃ k, k < 3 ∧ probeAccepted (oracle k) = true) := by
  constructor
  · exact detectLoop_invProtocol oracle 3 0
  · have h := detectLoop_detected oracle 3 0
    simpa using h

/-- Witness for C4: with a successful first probe the detector commits to
PI18. -/
theorem C4_witness :
    (detectProtocol goodProbe).invProtocol = "PI18" ∧
    (detectProtocol goodProbe).detected = true :=
  ⟨(C4_detection goodProbe).1,
   (C4_detection goodProbe).2.mpr ⟨0, by norm_num, by decide⟩⟩

/-! ## Claim C5 -/

/-- C5: for every raw warning/fault flag consulted during alarm derivation,
the derived canonical alarm value is exactly three-valued: 0 (none) when the
flag is present with value 0, 2 (alarm) when present with value 1, and 1
(unknown) when the flag is absent from the response — both in `getWarning`
of `_update_PI30` (lines 729-733) and in `get_warning` of
`_process_warnings` (lines 1271-1275) — and every alarm of a completed PI30
snapshot is derived from its raw flag by exactly this mapping. -/
theorem C5_three_valued_alarms :
    (∀ (w : String → Option ℤ) (k : String),
       (w k = some 0 → getWarning w k = 0 ∧ get_warning w k = 0) ∧
       (w k = some 1 → getWarning w k = 2 ∧ get_warning w k = 2) ∧
       (w k = none → getWarning w k = 1 ∧ get_warning w k = 1)) ∧
    (∀ (bypass guessAc : Bool) (data : QpigsData) (dm : Option String)
       (w : String → Option ℤ) (dcs : Option ℚ) (dl cl : ℚ)
       (snap : Snapshot) (dcL chL : ℚ),
       updatePI30 bypass guessAc data dm w dcs dl cl = .ok (snap, dcL, chL) →
       snap.alarmHighTemperature = getWarning w "over_temperature_fault" ∧
       snap.alarmOverload = getWarning w "overload_fault" ∧
       snap.alarmHighVoltage = getWarning w "bus_over_fault" ∧
       snap.alarmLowVoltage = getWarning w "bus_under_fault" ∧
       snap.alarmHighVoltageAcOut = getWarning w "inverter_voltage_too_high_fault" ∧
       snap.alarmLowVoltageAcOut = getWarning w "inverter_voltage_too_low_fault" ∧
       snap.alarmHighDcVoltage = getWarning w "battery_voltage_to_high_fault" ∧
       snap.alarmLowDcVoltage = getWarning w "battery_low_alarm_warning" ∧
       snap.alarmLineFail = getWarning w "line_fail_warning") := by
  constructor
  · intro w k
    refine ⟨?_, ?_, ?_⟩ <;> intro h <;> simp [getWarning, get_warning, h]
  · intro bypass guessAc data dm w dcs dl cl snap dcL chL h
    exact (updatePI30_ok_spec h).2.2.2.2.2.1

/-- Witness for C5 on `wFlags`: raised flag gives 2, clear flag gives 0,
absent flag gives 1. -/
theorem C5_witness :
    (getWarning wFlags "overload_fault" = 2 ∧ get_warning wFlags "overload_fault" = 2) ∧
    (getWarning wFlags "bus_over_fault" = 0 ∧ get_warning wFlags "bus_over_fault" = 0) ∧
    (getWarning wFlags "line_fail_warning" = 1 ∧ get_warning wFlags "line_fail_warning" = 1) :=
  ⟨(C5_three_valued_alarms.1 wFlags "overload_fault").2.1 (by decide),
   (C5_three_valued_alarms.1 wFlags "bus_over_fault").1 (by decide),
   (C5_three_valued_alarms.1 wFlags "line_fail_warning").2.2 (by decide)⟩

/-! ## Claim C6 -/

/-- C6 counterexample: with the unrecognized mode token `"PowerSaving"`, the
completed cycle projects the state to 0 (Off) but raises no connectivity
alarm — `/Alarms/Connection` ends the cycle at 0 (line 734), not 2 —
contradicting the claim that an unrecognized token comes with a connectivity
alarm raised for that cycle. -/
theorem C6_counterexample :
    updatePI30 true true {} (some "PowerSaving") wNone none 0 0
      = Except.ok (snapAllNone, 0, 0) ∧
    snapAllNone.state = 0 ∧ snapAllNone.alarmConnection = 0 ∧
    snapAllNone.alarmConnection ≠ 2 := by
  refine ⟨?_, rfl, rfl, by decide⟩
  simp [updatePI30, statePI30, smallPowerRecon, acChargeGuess, acInputPower, voltageOr27,
    getWarning, wNone, snapAllNone]

/-- C6 as amended: state projection is a deterministic function of the raw
mode token and the charging flag — `'Battery'` maps to 9 (Inverting),
`'Line'` with charging to 3 (Bulk), `'Line'` without charging to 8
(Passthrough), `'Standby'` with charging to 6 (Storage), `'Standby'` without
charging to 0 (Off), and every unrecognized token to 0 (Off) — but with NO
connectivity alarm raised for the unrecognized case: every completed cycle
ends with the connection alarm cleared to 0 (line 734). -/
theorem C6_state_projection :
    ∀ (bypass guessAc : Bool) (data : QpigsData) (dm : Option String)
      (w : String → Option ℤ) (dcs : Option ℚ) (dl cl : ℚ)
      (snap : Snapshot) (dcL chL : ℚ),
      updatePI30 bypass guessAc data dm w dcs dl cl = .ok (snap, dcL, chL) →
      snap.alarmConnection = 0 ∧
      (dm = some "Battery" → snap.state = 9) ∧
      (dm = some "Line" → data.is_charging_on.getD 0 = 1 → snap.state = 3) ∧
      (dm = some "Line" → data.is_charging_on.getD 0 ≠ 1 → snap.state = 8) ∧
      (dm = some "Standby" → data.is_charging_on.getD 0 = 1 → snap.state = 6) ∧
      (dm = some "Standby" → data.is_charging_on.getD 0 = 0 → snap.state = 0) ∧
      (dm ≠ some "Battery" → dm ≠ some "Line" → dm ≠ some "Standby" →
        snap.state = 0 ∧ snap.alarmConnection ≠ 2) := by
  intro bypass guessAc data dm w dcs dl cl snap dcL chL h
  obtain ⟨hstate, hconn, _⟩ := updatePI30_ok_spec h
  refine ⟨hconn, ?_, ?_, ?_, ?_, ?_, ?_⟩
  · intro hm
    rw [hstate, hm]
    unfold statePI30
    rw [if_pos rfl]
  · intro hm hc
    rw [hstate, hm]
    unfold statePI30
    rw [if_neg (by decide), if_pos rfl, if_pos hc]
  · intro hm hc
    rw [hstate, hm]
    unfold statePI30
    rw [if_neg (by decide), if_pos rfl, if_neg hc]
  · intro hm hc
    rw [hstate, hm]
    unfold statePI30
    rw [if_neg (by decide), if_neg (by decide), if_pos rfl, hc]
    norm_num
  · intro hm hc
    rw [hstate, hm]
    unfold statePI30
    rw [if_neg (by decide), if_neg (by decide), if_pos rfl, hc]
    norm_num
  · intro h1 h2 h3
    refine ⟨?_, ?_⟩
    · rw [hstate]
      unfold statePI30
      rw [if_neg h1, if_neg h2, if_neg h3]
    · rw [hconn]
      decide

/-- Witness for C6: the mode token `'Battery'` projects to 9 (Inverting) on
a completed concrete cycle, and the connection alarm ends at 0. -/
theorem C6_witness :
    snapBattery.state = 9 ∧ snapBattery.alarmConnection = 0 := by
  have h : updatePI30 true true dBattery (some "Battery") wNone none 0 0
      = Except.ok (snapBattery, 0, 0) := by
    simp [updatePI30, dBattery, statePI30, smallPowerRecon, acChargeGuess, acInputPower,
      voltageOr27, getWarning, wNone, snapBattery]
  have hc := C6_state_projection true true dBattery (some "Battery") wNone none 0 0
    snapBattery 0 0 h
  exact ⟨hc.2.1 rfl, hc.1⟩

/-! ## Claim C7 -/

/-- C7: with the bypass-assumption policy enabled (its default,
`INVERTER_OFF_ASSUME_BYPASS = True`), every completed poll cycle whose
status data reports the load as not connected reports AC-output active and
apparent power as unknown (`None`), never 0, whatever the raw payload
said. -/
theorem C7_bypass_unknown :
    ∀ (guessAc : Bool) (data : QpigsData) (dm : Option String)
      (w : String → Option ℤ) (dcs : Option ℚ) (dl cl : ℚ)
      (snap : Snapshot) (dcL chL : ℚ),
      data.is_load_on = some 0 →
      updatePI30 true guessAc data dm w dcs dl cl = .ok (snap, dcL, chL) →
      snap.acOutP = none ∧ snap.acOutS = none := by
  intro guessAc data dm w dcs dl cl snap dcL chL hload h
  obtain ⟨_, _, _, hP, hS, _⟩ := updatePI30_ok_spec h
  have hcond : (true = true ∧ data.is_load_on.getD 0 = 0) := ⟨rfl, by rw [hload]; rfl⟩
  rw [hP, if_pos hcond]
  rw [hS, if_pos hcond]
  exact ⟨rfl, rfl⟩

/-- Witness for C7 at `dLoadOff`: the raw payload reports 0 for both output
powers, yet the snapshot reports both as unknown. -/
theorem C7_witness : snapLoadOff.acOutP = none ∧ snapLoadOff.acOutS = none := by
  have h : updatePI30 true true dLoadOff none wNone none 0 0
      = Except.ok (snapLoadOff, 0, 0) := by
    simp [updatePI30, dLoadOff, statePI30, smallPowerRecon, acChargeGuess, acInputPower,
      voltageOr27, getWarning, wNone, snapLoadOff]
  exact C7_bypass_unknown true dLoadOff none wNone none 0 0 snapLoadOff 0 0 rfl h

/-! ## Claim C8 -/

/-- C8 counterexample: status data reporting output power 0, load connected,
with the external DC power reading available (50) — the three conditions the
claim states — but with the battery voltage absent.  The code's trigger
(line 684) additionally requires `m['/Dc/0/Voltage'] != None`, so no
reconstruction happens: the snapshot's output power stays 0 and the carry is
reset to 0, while the claim's formula demands
`clamp(50 + 0 + 27, 27, 100) - 27 = 50`. -/
theorem C8_counterexample :
    updatePI30 true true dNoVolt none wNone (some 50) 0 0
      = Except.ok (snapNoVolt, 0, 0) ∧
    snapNoVolt.acOutP = some 0 ∧
    min 100 (max 27 ((50 : ℚ) + 0 + 27)) - 27 = 50 ∧ (0 : ℚ) ≠ 50 := by
  refine ⟨?_, rfl, by norm_num, by norm_num⟩
  simp [updatePI30, dNoVolt, statePI30, smallPowerRecon, acChargeGuess, acInputPower,
    voltageOr27, getWarning, wNone, snapNoVolt]

/-- C8 as amended: with the reconstruction enabled (its default), for every
completed cycle in which the reported output power is 0, the load is
connected, the external DC power reading is available AND the battery
voltage reading is present (the additional guard at line 684), the estimated
output power equals `clamp(externalDcPower + carry + 27, 27, 100) - 27`
(hence bounded within [0, 73]) and becomes the carry for the next cycle;
whenever the triggering condition (including the voltage guard) is false,
the carry is reset to 0. -/
theorem C8_small_power_estimator :
    ∀ (data : QpigsData) (dm : Option String) (w : String → Option ℤ)
      (dcs : Option ℚ) (dl cl : ℚ) (snap : Snapshot) (dcL chL : ℚ),
      updatePI30 true true data dm w dcs dl cl = .ok (snap, dcL, chL) →
      (∀ ds : ℚ, dcs = some ds →
        data.ac_output_active_power = some 0 → data.is_load_on.getD 0 = 1 →
        data.battery_voltage.isSome = true →
        snap.acOutP = some (min 100 (max 27 (ds + dl + 27)) - 27) ∧
        dcL = min 100 (max 27 (ds + dl + 27)) - 27 ∧
        0 ≤ dcL ∧ dcL ≤ 73) ∧
      ((dcs = none ∨ ¬(data.ac_output_active_power = some 0 ∧
          data.is_load_on.getD 0 = 1 ∧ data.battery_voltage.isSome = true)) →
        dcL = 0) := by
  intro data dm w dcs dl cl snap dcL chL h
  obtain ⟨_, _, hdcL, hP, _, _, _⟩ := updatePI30_ok_spec h
  constructor
  · intro ds hds h0 h1 hv
    subst hds
    rw [smallPowerRecon_pos h0 h1 hv] at hdcL hP
    have hnot : ¬(true = true ∧ data.is_load_on.getD 0 = 0) := by
      intro hc
      have hz := hc.2
      rw [h1] at hz
      exact one_ne_zero hz
    rw [hP, if_neg hnot]
    refine ⟨rfl, hdcL, ?_, ?_⟩
    · rw [hdcL]
      exact (clamp_sub27_bounds _).1
    · rw [hdcL]
      exact (clamp_sub27_bounds _).2
  · intro hneg
    rw [hdcL, smallPowerRecon_neg hneg]

/-- Witness for C8, the spec's own example: `outputPower = 0`,
`loadConnected = true`, `externalDcPower = 50` yield the bounded nonzero
estimate 50, which becomes the next carry. -/
theorem C8_witness :
    snapRecon.acOutP = some (min 100 (max 27 ((50 : ℚ) + 0 + 27)) - 27) ∧
    (50 : ℚ) = min 100 (max 27 ((50 : ℚ) + 0 + 27)) - 27 ∧
    0 ≤ (50 : ℚ) ∧ (50 : ℚ) ≤ 73 := by
  have h : updatePI30 true true dRecon (some "Battery") wNone (some 50) 0 0
      = Except.ok (snapRecon, 50, 0) := by
    simp [updatePI30, dRecon, statePI30, smallPowerRecon, acChargeGuess, acInputPower,
      voltageOr27, getWarning, wNone, snapRecon]
    norm_num
  exact (C8_small_power_estimator dRecon (some "Battery") wNone (some 50) 0 0
    snapRecon 50 0 h).1 50 rfl rfl rfl rfl

/-! ## Claim C9 -/

/-- C9: confirmed — the final battery DC-current adjustment (line 723)
divides by `voltageOr27`, which is never zero (reported voltage with
fallback 27 whenever the voltage is 0 or missing), while the
AC-charging-current estimator (line 697) divides by the reported battery
voltage with no guard: with charging active and the external reading
present, the cycle completes if and only if the battery voltage is a
present, nonzero number. -/
theorem C9_division_guards :
    (∀ ov : Option ℚ, voltageOr27 ov ≠ 0) ∧
    (∀ (bypass guessAc : Bool) (data : QpigsData) (dm : Option String)
       (w : String → Option ℤ) (dcs : Option ℚ) (dl cl : ℚ)
       (snap : Snapshot) (dcL chL : ℚ),
       updatePI30 bypass guessAc data dm w dcs dl cl = .ok (snap, dcL, chL) →
       ∃ cac1 : ℚ, snap.dcCurrent = -(data.battery_discharge_current.getD 0) +
         data.is_charging_on.getD 0 * cac1 - dcL / voltageOr27 data.battery_voltage) ∧
    (∀ (data : QpigsData) (dm : Option String) (w : String → Option ℤ)
       (ds : ℚ) (dl cl : ℚ),
       data.is_charging_on = some 1 →
       (isOkE (updatePI30 true true data dm w (some ds) dl cl) = true ↔
         ∃ v : ℚ, data.battery_voltage = some v ∧ v ≠ 0)) := by
  refine ⟨?_, ?_, ?_⟩
  · intro ov
    cases ov with
    | none =>
      simp only [voltageOr27]
      norm_num
    | some x =>
      by_cases hx : x = 0
      · simp only [voltageOr27, if_pos hx]
        norm_num
      · simp only [voltageOr27, if_neg hx]
        exact hx
  · intro bypass guessAc data dm w dcs dl cl snap dcL chL h
    exact (updatePI30_ok_spec h).2.2.2.2.2.2
  · intro data dm w ds dl cl hch
    have hch1 : data.is_charging_on.getD 0 = (1 : ℚ) := by rw [hch]; rfl
    rw [isOkE_updatePI30_iff true true data dm w (some ds) dl cl]
    cases hbv : data.battery_voltage with
    | none =>
      constructor
      · rintro ⟨cg, hcg, -⟩
        simp [acChargeGuess, hch1] at hcg
      · rintro ⟨v, hv, -⟩
        exact Option.noConfusion hv
    | some v =>
      by_cases hv0 : v = 0
      · subst hv0
        constructor
        · rintro ⟨cg, hcg, -⟩
          simp [acChargeGuess, hch1] at hcg
        · rintro ⟨v2, hv2, hne⟩
          injection hv2 with hv3
          exact absurd hv3.symm hne
      · constructor
        · intro _
          exact ⟨v, rfl, hv0⟩
        · intro _
          refine ⟨(ds + cl - 30, -(ds + cl - 30) / v), ?_, ?_⟩
          · simp [acChargeGuess, hch1, hv0]
          · exact acInputPower_some_isOk _ _ _ _ _ _

/-- Witness for C9: the fallback divisor is nonzero even at a reported
voltage of 0, and with charging active the concrete cycle over `dCharge`
completes precisely because its battery voltage is a nonzero number. -/
theorem C9_witness :
    voltageOr27 (some 0) ≠ 0 ∧
    (isOkE (updatePI30 true true dCharge none wNone (some 50) 0 0) = true ↔
      ∃ v : ℚ, dCharge.battery_voltage = some v ∧ v ≠ 0) :=
  ⟨C9_division_guards.1 (some 0),
   C9_division_guards.2.2 dCharge none wNone 50 0 0 rfl⟩

/-! ## Claim C1 -/

/-- C1 counterexample: an exception reaching `_update`'s top-level handler
(lines 604-614) calls `mainloop.quit()`, and so does an exception in
`_change`'s dispatch (lines 636-639): a raised exception in a poll-cycle or
control-change execution terminates the main loop, contradicting the claim
that no failure category ever does. -/
theorem C1_counterexample :
    (updateCycle ⟨0, 0, 0, ""⟩ 2 10 (UpdOutcome.raised "division by zero")).quitMainloop
      = true ∧
    (changeCallback "/Mode" (ChangeOutcome.raised "protocol failure")).quitMainloop = true := by
  refine ⟨?_, rfl⟩
  unfold updateCycle
  rw [if_neg (by norm_num)]

/-- C1 as amended: failure containment holds below the top-level handlers —
the dispatcher always returns error values, a reported poll failure only
increments the error counter, and a non-throttled cycle quits the main loop
exactly when an exception reaches `_update`'s handler; `_change` quits the
main loop exactly on a `/Settings/Reset` write (a deliberate restart) or
when its protocol dispatch raises. -/
theorem C1_failure_containment :
    (∀ (s : UpdState) (interval now : ℚ) (o : UpdOutcome),
       (updateCycle s interval now o).quitMainloop = true ↔
         (¬(now - s.lastUpdateTime < interval) ∧ ∃ m, o = UpdOutcome.raised m)) ∧
    (∀ (path : String) (o : ChangeOutcome),
       (changeCallback path o).quitMainloop = true ↔
         ((∃ b, o = ChangeOutcome.handled b) ∧ path = "/Settings/Reset") ∨
           ∃ m, o = ChangeOutcome.raised m) := by
  constructor
  · intro s interval now o
    unfold updateCycle
    by_cases ht : now - s.lastUpdateTime < interval
    · rw [if_pos ht]
      simp [ht]
    · rw [if_neg ht]
      cases o with
      | success => simp [ht]
      | failure => simp [ht]
      | raised m => simp [ht]
  · intro path o
    cases o with
    | handled b => simp [changeCallback]
    | raised m => simp [changeCallback]

/-- Witness for C1: a non-throttled cycle whose handler raises quits the
main loop. -/
theorem C1_witness :
    (updateCycle ⟨3, 1, 0, "ok"⟩ 2 9 (UpdOutcome.raised "exc")).quitMainloop = true :=
  (C1_failure_containment.1 ⟨3, 1, 0, "ok"⟩ 2 9 (UpdOutcome.raised "exc")).mpr
    ⟨by norm_num, "exc", rfl⟩

/-! ## Claim C10 -/

/-- C10 counterexample: `_update` sets `/Status/LastError` to `str(e)` on an
exception (line 611); for an exception whose string form is empty, the error
counter is incremented but `LastError` is set to the empty string — not to a
non-empty message as the claim states. -/
theorem C10_counterexample :
    (updateCycle ⟨0, 5, 7, "prev"⟩ 2 10 (UpdOutcome.raised "")).state.errorCount = 7 + 1 ∧
    (updateCycle ⟨0, 5, 7, "prev"⟩ 2 10 (UpdOutcome.raised "")).state.updateCount = 5 ∧
    (updateCycle ⟨0, 5, 7, "prev"⟩ 2 10 (UpdOutcome.raised "")).state.lastError = "" ∧
    "".length = 0 := by
  unfold updateCycle
  rw [if_neg (by norm_num)]
  exact ⟨by trivial, by trivial, by trivial, by trivial⟩

/-- C10 as amended: every non-throttled poll cycle increments exactly one of
the two status counters — on success `/Status/UpdateCount` goes up by 1,
`/Status/LastError` is cleared and the last-update timestamp is recorded; on
a reported failure `/Status/ErrorCount` goes up by 1 and `/Status/LastError`
is set to `'Update failed'`; on a raised exception `/Status/ErrorCount` goes
up by 1 and `/Status/LastError` is set to the exception's message (which the
code does not guarantee to be non-empty) — and no cycle increments both. -/
theorem C10_status_counters :
    ∀ (s : UpdState) (interval now : ℚ),
      ¬(now - s.lastUpdateTime < interval) →
      ((updateCycle s interval now UpdOutcome.success).state.updateCount
          = s.updateCount + 1 ∧
        (updateCycle s interval now UpdOutcome.success).state.errorCount = s.errorCount ∧
        (updateCycle s interval now UpdOutcome.success).state.lastError = "" ∧
        (updateCycle s interval now UpdOutcome.success).state.lastUpdateTime = now) ∧
      ((updateCycle s interval now UpdOutcome.failure).state.errorCount
          = s.errorCount + 1 ∧
        (updateCycle s interval now UpdOutcome.failure).state.updateCount = s.updateCount ∧
        (updateCycle s interval now UpdOutcome.failure).state.lastError = "Update failed") ∧
      (∀ m, (updateCycle s interval now (UpdOutcome.raised m)).state.errorCount
          = s.errorCount + 1 ∧
        (updateCycle s interval now (UpdOutcome.raised m)).state.updateCount
          = s.updateCount ∧
        (updateCycle s interval now (UpdOutcome.raised m)).state.lastError = m) ∧
      (∀ o, (updateCycle s interval now o).state.updateCount
          + (updateCycle s interval now o).state.errorCount
          = s.updateCount + s.errorCount + 1) := by
  intro s interval now h
  simp only [updateCycle, if_neg h]
  refine ⟨⟨?_, ?_, ?_, ?_⟩, ⟨?_, ?_, ?_⟩, fun m => ⟨?_, ?_, ?_⟩, fun o => ?_⟩ <;>
    try trivial
  cases o <;> (try simp) <;> omega

/-- Witness for C10: a non-throttled successful cycle bumps the update
counter, a failed one records the failure message. -/
theorem C10_witness :
    (updateCycle ⟨0, 5, 7, "x"⟩ 2 10 UpdOutcome.success).state.updateCount = 5 + 1 ∧
    (updateCycle ⟨0, 5, 7, "x"⟩ 2 10 UpdOutcome.failure).state.lastError = "Update failed" :=
  ⟨((C10_status_counters ⟨0, 5, 7, "x"⟩ 2 10 (by norm_num)).1).1,
   ((C10_status_counters ⟨0, 5, 7, "x"⟩ 2 10 (by norm_num)).2.1).2.2⟩

end MppSolar
